import Mathlib

/-!
Shallow embedding of the durable-stream client session layer
(`src/main.ts`, class `DurableStreamClient`).

Modelling conventions:
- JS numbers are modelled as `ℚ` (the request-id counter is seeded from
  `Math.random()`, a value in `[0,1)`, and incremented by `1` per request, so
  ids are in general non-integral; exact rational arithmetic models the exact
  float arithmetic in the ranges exercised here).
- The `waitingOperations` object is an association list keyed by the request
  id; JS property insertion overwrites an existing key and appends otherwise.
- Callbacks are modelled by identity: the subscription handler is an opaque
  `HandlerId`, and invoking a callback is recorded as an emitted `Event`.
- Asynchronous waits are modelled by an observation trace `obs : ℕ → Bool`
  giving the value of `isConnected` seen at the t-th check of the `canSend`
  polling loop.
- A JS exception thrown inside a handling step is an `Except.error`; the step
  then performs no state change and sends nothing, matching the fact that in
  the source the throwing expression precedes every mutation of the branch.
-/

namespace DSClient

/-- Identity of a stored subscription handler (`doHandle`); handlers are
opaque to the session layer, so only their identity matters. -/
abbrev HandlerId := Nat

/-- Payload of a client request: a user message passed to `publish`, or one of
the canned command objects built by the convenience methods (`subscribe`,
`unsubscribe`, `info`, `deleteMessages`, `getState`, `putState`). -/
inductive Payload where
  | user (s : String)
  | subscribeCmd (startSequence : ℚ)
  | unsubscribeCmd
  | getStreamInfoCmd
  | deleteMessagesCmd (sequence : ℚ)
  | getStateCmd
  | putStateCmd (state : String)
deriving DecidableEq

/-- Inbound wire frame, i.e. the result of a successful `JSON.parse` in the
message listener. `pub := false` models absence (or falsiness) of the `pub`
tag, matching the truthiness test `if (json.pub)`; `cMsgId`/`sMsgId` are
optional numeric tags; `sequence` is the delivery sequence number; `body`
stands for all remaining payload fields. -/
structure Frame where
  pub : Bool := false
  cMsgId : Option ℚ := none
  sMsgId : Option ℚ := none
  sequence : ℚ := 0
  body : String := ""
deriving DecidableEq

/-- Truthiness of an optional numeric field, as in `if (json.cMsgId)`:
absent and `0` are falsy. -/
def jsTruthy : Option ℚ → Bool
  | none => false
  | some q => decide (q ≠ 0)

/-- Effect of `delete json.pub` on a frame. -/
def stripPub (f : Frame) : Frame :=
  { f with pub := false }

/-- One entry of `waitingOperations`: the original payload, the request id and
the client id (the `resolveMe` callback is modelled by the `Event.resolve`
emission). -/
structure PendingOp where
  data : Payload
  cMsgId : ℚ
  clientId : ℚ
deriving DecidableEq

/-- Lookup of `waitingOperations[k]` (JS object key lookup). -/
def lookupOp (ops : List (ℚ × PendingOp)) (k : ℚ) : Option PendingOp :=
  (ops.find? (fun p => p.1 == k)).map Prod.snd

/-- Effect of `delete waitingOperations[k]`. -/
def eraseOp (ops : List (ℚ × PendingOp)) (k : ℚ) : List (ℚ × PendingOp) :=
  ops.filter (fun p => p.1 != k)

/-- Effect of `waitingOperations[k] = v` (overwrite or append). -/
def insertOp (ops : List (ℚ × PendingOp)) (k : ℚ) (v : PendingOp) :
    List (ℚ × PendingOp) :=
  eraseOp ops k ++ [(k, v)]

/-- The mutable state of a `DurableStreamClient` instance (the fields of the
class; the raw socket handle itself is outside the state, its readiness is
observed through `ReadyState` traces). -/
structure Session where
  host : String
  apiKey : String
  r2Url : String
  wsUrl : String
  waitingOperations : List (ℚ × PendingOp)
  cMsgId : ℚ
  clientId : ℚ
  listener : Option HandlerId
  isConnected : Bool
  reconnects : ℤ
  lastSequence : ℚ
deriving DecidableEq

/-- Constructor arguments of `DurableStreamClient`. -/
structure Config where
  host : String
  secure : Bool
  apiKey : String
  subject : String
deriving DecidableEq

/-- Field initialisation performed by the constructor body (after the api-key
check); `rand` is the value drawn from `Math.random()`. -/
def mkSession (cfg : Config) (rand : ℚ) : Session :=
  { host := cfg.host
    apiKey := cfg.apiKey
    r2Url := (if cfg.secure then "https" else "http") ++ "://" ++ cfg.host ++ "/r2"
    wsUrl := (if cfg.secure then "wss" else "ws") ++ "://" ++ cfg.host ++ "/stream/"
               ++ cfg.subject ++ "?apiKey=" ++ cfg.apiKey
    waitingOperations := []
    cMsgId := rand
    clientId := rand
    listener := none
    isConnected := false
    reconnects := -1
    lastSequence := 0 }

/-- The constructor including its api-key sanity check: `!obj.apiKey` is true
exactly for the empty string, in which case the constructor throws
(modelled as `none`). -/
def constructClient (cfg : Config) (rand : ℚ) : Option Session :=
  if cfg.apiKey = "" then none else some (mkSession cfg rand)

/-- Frames written to the socket: the request object
`{data: msg, cMsgId, clientId}` built by `publish`, or a re-serialised
inbound frame (the acknowledgment echo of the `pub` branch and the `sMsgId`
echo). -/
inductive WireOut where
  | request (data : Payload) (cMsgId : ℚ) (clientId : ℚ)
  | echo (f : Frame)
deriving DecidableEq

/-- Observable callback invocations of a handling step: delivery of a frame to
the stored subscription handler, or resolution of a pending operation's
promise with the full response frame. -/
inductive Event where
  | deliver (msg : Frame) (handler : HandlerId)
  | resolve (id : ℚ) (response : Frame)
deriving DecidableEq

/-- Exceptions a message-handling step can throw: `JSON.parse` failing on a
malformed payload, `this.listener.doHandle` being `undefined` (TypeError:
not a function), or `waitingOperations[id]` being `undefined` (TypeError:
cannot read `resolveMe`). None of them is caught in the source. -/
inductive HandleErr where
  | parseError
  | noHandler
  | noPendingEntry (id : ℚ)
deriving DecidableEq

/-- The acknowledgment closure constructed in the `pub` branch, bound to the
(already stripped) frame `f`: it sets `lastSequence` to `f.sequence` and
re-sends the frame as the acknowledgment echo. -/
def ackAction (f : Frame) (s : Session) : Session × List WireOut :=
  ({ s with lastSequence := f.sequence }, [WireOut.echo f])

/-- The message listener body after a successful parse: classify the frame by
`pub`, then `cMsgId`, then `sMsgId`, in that order; a frame matching none of
the tags falls through with no effect. The `pub` branch strips the tag and
invokes the stored handler (throwing if none is stored) with the
acknowledgment action `ackAction (stripPub f)`; the `cMsgId` branch resolves
and deletes the pending entry (throwing if none is registered); the `sMsgId`
branch echoes the frame unmodified. -/
def handleFrame (s : Session) (f : Frame) :
    Except HandleErr (Session × List WireOut × List Event) :=
  if f.pub then
    match s.listener with
    | none => Except.error HandleErr.noHandler
    | some h => Except.ok (s, [], [Event.deliver (stripPub f) h])
  else if jsTruthy f.cMsgId then
    let k := f.cMsgId.getD 0
    match lookupOp s.waitingOperations k with
    | none => Except.error (HandleErr.noPendingEntry k)
    | some _ =>
        Except.ok ({ s with waitingOperations := eraseOp s.waitingOperations k },
                   [], [Event.resolve k f])
  else if jsTruthy f.sMsgId then
    Except.ok (s, [WireOut.echo f], [])
  else
    Except.ok (s, [], [])

/-- The whole message listener, starting from the `JSON.parse` result: a
malformed payload (`none`) throws a parse error before any other action. -/
def handleRaw (s : Session) (parsed : Option Frame) :
    Except HandleErr (Session × List WireOut × List Event) :=
  match parsed with
  | none => Except.error HandleErr.parseError
  | some f => handleFrame s f

/-- The `canSend` polling loop: at state `tries`, exit with the current count
if connected, otherwise sleep, increment, and break once the count exceeds 20.
`obs t` is the value of `isConnected` observed at the check with count `t`;
the fuel `21` is an upper bound on the number of iterations the source loop
can perform. -/
def canSendLoop (obs : ℕ → Bool) : ℕ → ℕ → ℕ
  | tries, 0 => tries
  | tries, fuel + 1 =>
    if obs tries then tries
    else
      let t := tries + 1
      if t > 20 then t else canSendLoop obs t fuel

/-- Result of `canSend()`: run the loop from `tries = 0` and return
`tries < 20`. -/
def canSend (obs : ℕ → Bool) : Bool :=
  canSendLoop obs 0 21 < 20

/-- Value returned by `publish`: the soft error object
`{error: 'Could not send message'}`, or a pending promise resolved by the
response carrying the given request id. -/
inductive PublishResult where
  | softError (msg : String)
  | pending (id : ℚ)
deriving DecidableEq

/-- The connected path of `publish`: increment the request-id counter,
register the pending entry under the new id, and send
`{data: msg, cMsgId, clientId}`. -/
def publishCore (s : Session) (msg : Payload) : Session × WireOut :=
  let id := s.cMsgId + 1
  ({ s with
      cMsgId := id
      waitingOperations := insertOp s.waitingOperations id ⟨msg, id, s.clientId⟩ },
   WireOut.request msg id s.clientId)

/-- The `publish` method: if `canSend` fails the soft error value is returned
with no other effect; otherwise the request is registered and sent and the
returned promise is pending on the new id. -/
def publish (obs : ℕ → Bool) (s : Session) (msg : Payload) :
    Session × List WireOut × PublishResult :=
  if canSend obs then
    let r := publishCore s msg
    (r.1, [r.2], PublishResult.pending r.1.cMsgId)
  else
    (s, [], PublishResult.softError "Could not send message")

/-- The `info` method: a canned publish of `{cmd: 'getStreamInfo'}`. -/
def info (obs : ℕ → Bool) (s : Session) : Session × List WireOut × PublishResult :=
  publish obs s Payload.getStreamInfoCmd

/-- The `deleteMessages` method: a canned publish of
`{cmd: 'deleteMessages', sequence}`. -/
def deleteMessages (obs : ℕ → Bool) (s : Session) (sequence : ℚ) :
    Session × List WireOut × PublishResult :=
  publish obs s (Payload.deleteMessagesCmd sequence)

/-- The `getState` method: a canned publish of `{cmd: 'getState'}`. -/
def getState (obs : ℕ → Bool) (s : Session) : Session × List WireOut × PublishResult :=
  publish obs s Payload.getStateCmd

/-- The `putState` method: a canned publish of `{cmd: 'putState', state}`. -/
def putState (obs : ℕ → Bool) (s : Session) (st : String) :
    Session × List WireOut × PublishResult :=
  publish obs s (Payload.putStateCmd st)

/-- The `subscribe` method: fire a (non-awaited) publish of
`{cmd: 'subscribe', startSequence}`, set `lastSequence := startSequence` and
store the handler. -/
def subscribe (obs : ℕ → Bool) (s : Session) (startSequence : ℚ) (h : HandlerId) :
    Session × List WireOut :=
  let r := publish obs s (Payload.subscribeCmd startSequence)
  ({ r.1 with lastSequence := startSequence, listener := some h }, r.2.1)

/-- The `unsubscribe` method: publish `{cmd: 'unsubscribe'}`, await its
completion (either the soft error or the response, whose arrival is collapsed
into this step), then clear the listener. `lastSequence` is not touched. -/
def unsubscribe (obs : ℕ → Bool) (s : Session) : Session × List WireOut :=
  let r := publish obs s Payload.unsubscribeCmd
  ({ r.1 with listener := none }, r.2.1)

/-- Readiness of the socket handle as observed by the `init` loop. -/
inductive ReadyState where
  | connecting
  | opened
  | closing
  | closed
deriving DecidableEq

/-- The success branch of the `init` loop (readyState `OPEN`): after the
settle delay, increment the reconnect counter, mark connected, and — when a
handler is stored — re-subscribe at the current `lastSequence` with that same
handler (connected, so the inner `canSend` observes `true`). -/
def connectEstablish (s : Session) : Session × List WireOut :=
  let s1 := { s with reconnects := s.reconnects + 1, isConnected := true }
  match s1.listener with
  | none => (s1, [])
  | some h => subscribe (fun _ => true) s1 s1.lastSequence h

/-- The `init` polling loop: each iteration first sets `isConnected := false`;
on readyState `OPEN` it succeeds through `connectEstablish`; on
`CLOSED`/`CLOSING` it allocates a fresh socket handle (a swap with no effect
on the session fields) and loops; on `CONNECTING` it sleeps and loops. `rs t`
is the readiness observed at iteration `t`; the loop has no bound in the
source, so fuel limits how many iterations are examined — `none` means the
loop is still running after `fuel` iterations. -/
def initLoop (rs : ℕ → ReadyState) : ℕ → ℕ → Session → Option (Session × List WireOut)
  | _, 0, _ => none
  | t, fuel + 1, s =>
    match rs t with
    | ReadyState.opened => some (connectEstablish { s with isConnected := false })
    | _ => initLoop rs (t + 1) fuel { s with isConnected := false }

/-- Iterated sends through the connected `publish` path: the session after `n`
requests with payloads `msgs 0`, …, `msgs (n-1)`. -/
def publishIter (msgs : ℕ → Payload) (s : Session) : ℕ → Session
  | 0 => s
  | n + 1 => (publishCore (publishIter msgs s n) (msgs n)).1

/-! Concrete fixtures used by witnesses and counterexamples. -/

/-- Sample constructor arguments. -/
def cfgW : Config :=
  { host := "localhost:8787", secure := false, apiKey := "k", subject := "s" }

/-- Freshly constructed session with random seed `1/2`. -/
def sessW : Session := mkSession cfgW (1/2)

/-- Session with a stored handler (id `7`), an acknowledged cursor at `5`, a
pending entry under id `2`, marked connected. -/
def sessSub : Session :=
  { sessW with
      listener := some 7
      lastSequence := 5
      isConnected := true
      waitingOperations := [(2, ⟨Payload.user "m", 2, 1/2⟩)] }

/-- Delivery frame with sequence 9. -/
def framePub : Frame := { pub := true, sequence := 9 }

/-- Response frame correlated to pending id 2. -/
def frameCorr : Frame := { cMsgId := some 2 }

/-- Response frame with a correlation id no pending entry is registered
under. -/
def frameCorr7 : Frame := { cMsgId := some 7 }

/-- Server-initiated request frame. -/
def frameServ : Frame := { sMsgId := some 4 }

/-- Frame carrying none of the three tags. -/
def frameNone : Frame := { body := "stray" }

/-- Delivery frame with sequence 3 (lower than `sessSub`'s cursor). -/
def frameSeq3 : Frame := { sequence := 3 }

/-! Shared helper lemmas. -/

/-- When the connection is observed up at the first check, `canSend`
succeeds immediately. -/
theorem canSend_const_true : canSend (fun _ => true) = true := rfl

/-- When the connection is observed down at every check, the polling loop
exhausts its 21 iterations and `canSend` fails. -/
theorem canSend_const_false : canSend (fun _ => false) = false := rfl

/-- The subscribe step never touches the reconnect counter. -/
theorem subscribe_reconnects (obs : ℕ → Bool) (s : Session) (q : ℚ) (h : HandlerId) :
    (subscribe obs s q h).1.reconnects = s.reconnects := by
  unfold subscribe publish
  split <;> rfl

/-- One pass of the success branch adds exactly one to the reconnect
counter. -/
theorem connectEstablish_reconnects (s : Session) :
    (connectEstablish s).1.reconnects = s.reconnects + 1 := by
  unfold connectEstablish
  cases h : s.listener with
  | none => simp [h]
  | some hd => simpa [h] using subscribe_reconnects (fun _ => true) _ s.lastSequence hd

/-- Whenever the `init` loop returns, the reconnect counter has been
incremented exactly once relative to the state the loop started from. -/
theorem initLoop_reconnects (rs : ℕ → ReadyState) :
    ∀ (fuel t : ℕ) (s s2 : Session) (outs : List WireOut),
      initLoop rs t fuel s = some (s2, outs) → s2.reconnects = s.reconnects + 1 := by
  intro fuel
  induction fuel with
  | zero => intro t s s2 outs h; simp [initLoop] at h
  | succ n ih =>
    intro t s s2 outs h
    unfold initLoop at h
    split at h
    · have h1 := congrArg Prod.fst (Option.some.inj h)
      simp only [Prod.fst] at h1
      rw [← h1, connectEstablish_reconnects]
    · exact ih (t + 1) { s with isConnected := false } s2 outs h

/-- Delivery frame with sequence 5. -/
def frameSeq5 : Frame := { sequence := 5 }

/-- Session obtained from a fresh client by subscribing at 0 with handler 7
and acknowledging the delivery with sequence 5: its cursor is 5. -/
def sessAck5 : Session :=
  (ackAction frameSeq5 (subscribe (fun _ => true) sessW 0 7).1).1

/-- Claim C1, counterexample: from a session whose cursor was acknowledged up
to 5, invoking the acknowledgment action of a redelivered frame with sequence
3 moves the cursor to 3, strictly below 5; likewise subscribe with
startSequence 0 moves the cursor to 0 — the cursor is not monotonically
non-decreasing. -/
theorem claim_C1_counterexample :
    sessAck5.lastSequence = 5 ∧
    (ackAction frameSeq3 sessAck5).1.lastSequence = 3 ∧
    (ackAction frameSeq3 sessAck5).1.lastSequence < sessAck5.lastSequence ∧
    (subscribe (fun _ => true) sessAck5 0 7).1.lastSequence = 0 ∧
    (subscribe (fun _ => true) sessAck5 0 7).1.lastSequence < sessAck5.lastSequence := by
  refine ⟨rfl, rfl, ?_, rfl, ?_⟩
  · show (3:ℚ) < 5
    norm_num
  · show (0:ℚ) < 5
    norm_num

/-- Claim C1, amended: the acknowledgment action always sets the cursor to the
acknowledged frame's sequence and is idempotent (invoking it a second time
produces the identical state and resends the same echo harmlessly), and
subscribe always sets the cursor to exactly its startSequence argument; the
cursor is therefore not monotonically non-decreasing — an acknowledgment of a
lower-sequence frame or a subscribe with a lower startSequence moves it to
that strictly smaller value. -/
theorem claim_C1_amended (s : Session) (f : Frame) (q : ℚ) (h : HandlerId)
    (obs : ℕ → Bool) :
    (ackAction f s).1.lastSequence = f.sequence ∧
    ackAction f (ackAction f s).1 = ((ackAction f s).1, (ackAction f s).2) ∧
    (subscribe obs s q h).1.lastSequence = q := by
  refine ⟨rfl, rfl, ?_⟩
  unfold subscribe publish
  split <;> rfl

/-- Claim C2, counterexample: a frame carrying correlation id 7 arriving at a
session with no pending entry under 7 is not silently dropped — the handling
step throws (reading `resolveMe` of `undefined`) instead of returning
unchanged. -/
theorem claim_C2_counterexample :
    handleFrame sessW frameCorr7 = Except.error (HandleErr.noPendingEntry 7) ∧
    handleFrame sessW frameCorr7 ≠ Except.ok (sessW, [], []) := by
  refine ⟨rfl, ?_⟩
  intro h
  exact Except.noConfusion h

/-- Claim C2, amended: an inbound frame carrying a client-correlation tag is
delivered to exactly one pending entry when one is registered under that id —
its completion callback is invoked with the full frame and the entry is then
removed; when no entry is registered under the id the handling step fails
with an error (the pending-request map left unchanged) rather than silently
dropping the frame. -/
theorem claim_C2_amended (s : Session) (f : Frame) (hp : f.pub = false)
    (hc : jsTruthy f.cMsgId = true) :
    (∀ e, lookupOp s.waitingOperations (f.cMsgId.getD 0) = some e →
        handleFrame s f =
          Except.ok ({ s with
                        waitingOperations := eraseOp s.waitingOperations (f.cMsgId.getD 0) },
                     [], [Event.resolve (f.cMsgId.getD 0) f])) ∧
    (lookupOp s.waitingOperations (f.cMsgId.getD 0) = none →
        handleFrame s f = Except.error (HandleErr.noPendingEntry (f.cMsgId.getD 0))) := by
  constructor
  · intro e he
    simp [handleFrame, hp, hc, he]
  · intro he
    simp [handleFrame, hp, hc, he]

/-- Claim C2 witness: with a pending entry registered under id 2, the response
frame tagged 2 resolves and removes exactly that entry; the response tagged 7
(no entry) fails with the lookup error. -/
theorem claim_C2_witness :
    handleFrame sessSub frameCorr =
      Except.ok ({ sessSub with
                    waitingOperations := eraseOp sessSub.waitingOperations 2 },
                 [], [Event.resolve 2 frameCorr]) ∧
    handleFrame sessSub frameCorr7 = Except.error (HandleErr.noPendingEntry 7) :=
  ⟨(claim_C2_amended sessSub frameCorr rfl (by decide)).1 ⟨Payload.user "m", 2, 1/2⟩ rfl,
   (claim_C2_amended sessSub frameCorr7 rfl (by decide)).2 rfl⟩

/-- Claim C3, counterexample: an unparseable payload is not logged and
dropped — the handling step fails with the parse error thrown by
`JSON.parse`, which the source never catches. -/
theorem claim_C3_counterexample :
    handleRaw sessW none = Except.error HandleErr.parseError ∧
    handleRaw sessW none ≠ Except.ok (sessW, [], []) := by
  refine ⟨rfl, ?_⟩
  intro h
  exact Except.noConfusion h

/-- Claim C3, amended: for every session, an inbound message whose payload is
not parseable makes the message-handling step fail with a parse error that
escapes the handler uncaught (nothing is logged); no state is changed and
nothing is sent by the failed step. -/
theorem claim_C3_amended (s : Session) :
    handleRaw s none = Except.error HandleErr.parseError := rfl

/-- Claim C4: a publish (or any publish-derived operation) issued while the
session is observed disconnected at every check of the bounded wait returns
the soft error value, sends no frame, and leaves the session — in particular
the pending-request map and the request-id counter — unchanged. -/
theorem claim_C4 (obs : ℕ → Bool) (hobs : ∀ t, obs t = false) (s : Session)
    (msg : Payload) (q : ℚ) (st : String) :
    publish obs s msg = (s, [], PublishResult.softError "Could not send message") ∧
    info obs s = (s, [], PublishResult.softError "Could not send message") ∧
    deleteMessages obs s q = (s, [], PublishResult.softError "Could not send message") ∧
    getState obs s = (s, [], PublishResult.softError "Could not send message") ∧
    putState obs s st = (s, [], PublishResult.softError "Could not send message") := by
  have hfun : obs = fun _ => false := funext hobs
  subst hfun
  exact ⟨rfl, rfl, rfl, rfl, rfl⟩

/-- Claim C4 witness: the disconnected-forever observation trace on a fresh
session. -/
theorem claim_C4_witness :
    publish (fun _ => false) sessW (Payload.user "m") =
        (sessW, [], PublishResult.softError "Could not send message") ∧
    info (fun _ => false) sessW =
        (sessW, [], PublishResult.softError "Could not send message") ∧
    deleteMessages (fun _ => false) sessW 4 =
        (sessW, [], PublishResult.softError "Could not send message") ∧
    getState (fun _ => false) sessW =
        (sessW, [], PublishResult.softError "Could not send message") ∧
    putState (fun _ => false) sessW "st" =
        (sessW, [], PublishResult.softError "Could not send message") :=
  claim_C4 (fun _ => false) (fun _ => rfl) sessW (Payload.user "m") 4 "st"

/-- Claim C5: the message listener classifies every parsed frame in the fixed
priority order pub, then cMsgId, then sMsgId. A delivery-tagged frame is
stripped of the tag and handed to the stored handler together with the
acknowledgment action bound to that stripped frame (which sets the cursor to
the frame's sequence and echoes it); a correlation-tagged frame resolves and
removes the registered pending entry; a server-request frame is echoed back
unmodified with no state change; a frame with none of the tags is silently
ignored — no state change, nothing sent, no callback invoked. -/
theorem claim_C5 (s : Session) (f : Frame) :
    (f.pub = true → ∀ h, s.listener = some h →
        handleFrame s f = Except.ok (s, [], [Event.deliver (stripPub f) h]) ∧
        ∀ s2, ackAction (stripPub f) s2 =
          ({ s2 with lastSequence := f.sequence }, [WireOut.echo (stripPub f)])) ∧
    (f.pub = false → jsTruthy f.cMsgId = true →
        ∀ e, lookupOp s.waitingOperations (f.cMsgId.getD 0) = some e →
          handleFrame s f =
            Except.ok ({ s with
                          waitingOperations := eraseOp s.waitingOperations (f.cMsgId.getD 0) },
                       [], [Event.resolve (f.cMsgId.getD 0) f])) ∧
    (f.pub = false → jsTruthy f.cMsgId = false → jsTruthy f.sMsgId = true →
        handleFrame s f = Except.ok (s, [WireOut.echo f], [])) ∧
    (f.pub = false → jsTruthy f.cMsgId = false → jsTruthy f.sMsgId = false →
        handleFrame s f = Except.ok (s, [], [])) := by
  refine ⟨?_, ?_, ?_, ?_⟩
  · intro hp h hl
    refine ⟨by simp [handleFrame, hp, hl], fun s2 => rfl⟩
  · intro hp hc e he
    simp [handleFrame, hp, hc, he]
  · intro hp hc hs
    simp [handleFrame, hp, hc, hs]
  · intro hp hc hs
    simp [handleFrame, hp, hc, hs]

/-- Claim C5 witness: the four routing cases evaluated on a session with a
stored handler (id 7) and one pending entry (id 2). -/
theorem claim_C5_witness :
    handleFrame sessSub framePub =
        Except.ok (sessSub, [], [Event.deliver (stripPub framePub) 7]) ∧
    handleFrame sessSub frameCorr =
        Except.ok ({ sessSub with
                      waitingOperations := eraseOp sessSub.waitingOperations 2 },
                   [], [Event.resolve 2 frameCorr]) ∧
    handleFrame sessSub frameServ = Except.ok (sessSub, [WireOut.echo frameServ], []) ∧
    handleFrame sessSub frameNone = Except.ok (sessSub, [], []) :=
  ⟨((claim_C5 sessSub framePub).1 rfl 7 rfl).1,
   (claim_C5 sessSub frameCorr).2.1 rfl (by decide) ⟨Payload.user "m", 2, 1/2⟩ rfl,
   (claim_C5 sessSub frameServ).2.2.1 rfl rfl (by decide),
   (claim_C5 sessSub frameNone).2.2.2 rfl rfl rfl⟩

/-- Claim C6: the reconnect counter starts at −1 at construction; every
successful pass of the `init` establishment loop — first connect or
re-establishment, from any state — increments it by exactly one; hence the
very first successful connect of a fresh session reports 0. -/
theorem claim_C6 (cfg : Config) (rand : ℚ) (s0 : Session)
    (hmk : constructClient cfg rand = some s0)
    (rs : ℕ → ReadyState) (t fuel : ℕ) (sa : Session) (outsa : List WireOut)
    (h0 : initLoop rs t fuel s0 = some (sa, outsa))
    (rs2 : ℕ → ReadyState) (t2 fuel2 : ℕ) (s sb : Session) (outsb : List WireOut)
    (h2 : initLoop rs2 t2 fuel2 s = some (sb, outsb)) :
    s0.reconnects = -1 ∧ sb.reconnects = s.reconnects + 1 ∧ sa.reconnects = 0 := by
  have hc : s0.reconnects = -1 := by
    unfold constructClient at hmk
    split at hmk
    · exact absurd hmk (by simp)
    · have := Option.some.inj hmk
      rw [← this]
      rfl
  refine ⟨hc, initLoop_reconnects rs2 fuel2 t2 s sb outsb h2, ?_⟩
  have h1 := initLoop_reconnects rs fuel t s0 sa outsa h0
  rw [h1, hc]
  ring

/-- Claim C6 witness: a fresh session whose socket is observed open at the
first iteration establishes with a reconnect count of 0. -/
theorem claim_C6_witness :
    sessW.reconnects = -1 ∧
    (connectEstablish { sessW with isConnected := false }).1.reconnects =
      sessW.reconnects + 1 ∧
    (connectEstablish { sessW with isConnected := false }).1.reconnects = 0 :=
  claim_C6 cfgW (1/2) sessW rfl
    (fun _ => ReadyState.opened) 0 1
    (connectEstablish { sessW with isConnected := false }).1
    (connectEstablish { sessW with isConnected := false }).2 rfl
    (fun _ => ReadyState.opened) 0 1 sessW
    (connectEstablish { sessW with isConnected := false }).1
    (connectEstablish { sessW with isConnected := false }).2 rfl

/-- Claim C7: when a handler is stored, the successful establishment pass
automatically re-sends exactly one subscribe request whose start sequence is
the current cursor (hence at least any sequence S the cursor had reached),
and the stored handler after the pass is the same one. -/
theorem claim_C7 (s : Session) (hd : HandlerId) (hl : s.listener = some hd)
    (S : ℚ) (hS : s.lastSequence = S) :
    (connectEstablish s).2 =
      [WireOut.request (Payload.subscribeCmd s.lastSequence) (s.cMsgId + 1) s.clientId] ∧
    (connectEstablish s).1.listener = some hd ∧
    S ≤ s.lastSequence := by
  refine ⟨?_, ?_, le_of_eq hS.symm⟩ <;>
    simp [connectEstablish, hl, subscribe, publish, canSend_const_true, publishCore]

/-- Claim C7 witness: the session subscribed with handler 7 and cursor 5
resumes with a subscribe request at start sequence 5 and keeps handler 7. -/
theorem claim_C7_witness :
    (connectEstablish sessSub).2 =
      [WireOut.request (Payload.subscribeCmd sessSub.lastSequence)
        (sessSub.cMsgId + 1) sessSub.clientId] ∧
    (connectEstablish sessSub).1.listener = some 7 ∧
    (5:ℚ) ≤ sessSub.lastSequence :=
  claim_C7 sessSub 7 rfl 5 rfl

/-- Claim C8, counterexample: with random seed 1/2 the id of the first request
is 3/2, which is not an integer — the counter is seeded from `Math.random()`,
a value in `[0,1)`, so request ids are in general non-integral. -/
theorem claim_C8_counterexample :
    (publishCore sessW (Payload.user "m")).1.cMsgId = 3/2 ∧
    ¬ ∃ z : ℤ, (publishCore sessW (Payload.user "m")).1.cMsgId = (z:ℚ) := by
  have hv : (publishCore sessW (Payload.user "m")).1.cMsgId = 3/2 := by
    show (1:ℚ)/2 + 1 = 3/2
    norm_num
  refine ⟨hv, ?_⟩
  rintro ⟨z, hz⟩
  rw [hv] at hz
  have h1 : (2:ℚ) * z = 3 := by rw [← hz]; ring
  have h2 : (2 * z : ℤ) = 3 := by exact_mod_cast h1
  omega

/-- Claim C8, amended: request ids are generated by a strictly increasing
counter seeded from a per-session random value and incremented by one per
request — after n requests the id equals seed + n, and a later request's id is
strictly greater than any earlier one's, so ids never repeat within a
session's lifetime; the ids are in general not integers, since the seed is a
random value in [0,1). -/
theorem claim_C8_amended (msgs : ℕ → Payload) (s : Session) (i j : ℕ)
    (hij : i < j) :
    (publishIter msgs s i).cMsgId = s.cMsgId + i ∧
    (publishIter msgs s i).cMsgId < (publishIter msgs s j).cMsgId := by
  have key : ∀ n, (publishIter msgs s n).cMsgId = s.cMsgId + n := by
    intro n
    induction n with
    | zero => simp [publishIter]
    | succ n ih =>
        show (publishIter msgs s n).cMsgId + 1 = s.cMsgId + (n + 1 : ℕ)
        rw [ih]
        push_cast
        ring
  refine ⟨key i, ?_⟩
  rw [key i, key j]
  have hq : (i:ℚ) < j := by exact_mod_cast hij
  linarith

/-- Claim C8 witness: the first and second request ids of a fresh session. -/
theorem claim_C8_witness :
    (publishIter (fun _ => Payload.user "m") sessW 1).cMsgId =
      sessW.cMsgId + ((1:ℕ):ℚ) ∧
    (publishIter (fun _ => Payload.user "m") sessW 1).cMsgId <
      (publishIter (fun _ => Payload.user "m") sessW 2).cMsgId :=
  claim_C8_amended (fun _ => Payload.user "m") sessW 1 2 (by norm_num)

/-- Claim C9, counterexample: on a subscribed session that stays disconnected
through the full bounded wait, unsubscribe sends no frame at all (the inner
publish fails soft), even though the handler is cleared and the cursor kept —
so it is not true that unsubscribe sends an unsubscribe request in every
session state. -/
theorem claim_C9_counterexample :
    (unsubscribe (fun _ => false) sessSub).2 = [] ∧
    (unsubscribe (fun _ => false) sessSub).1.listener = none ∧
    (unsubscribe (fun _ => false) sessSub).1.lastSequence = 5 :=
  ⟨rfl, rfl, rfl⟩

/-- Claim C9, amended: unsubscribe always clears the stored handler and leaves
the last-acknowledged sequence unchanged (so it stays available for a future
resubscribe); it sends the unsubscribe request exactly when the bounded
connectivity wait succeeds — when the session stays disconnected past the
wait, nothing is sent. -/
theorem claim_C9_amended (obs : ℕ → Bool) (s : Session) :
    (unsubscribe obs s).1.listener = none ∧
    (unsubscribe obs s).1.lastSequence = s.lastSequence ∧
    (canSend obs = true →
        (unsubscribe obs s).2 =
          [WireOut.request Payload.unsubscribeCmd (s.cMsgId + 1) s.clientId]) ∧
    (canSend obs = false → (unsubscribe obs s).2 = []) := by
  unfold unsubscribe publish
  cases hcs : canSend obs <;> simp [hcs, publishCore]

/-- Claim C9 witness: the connected trace sends the unsubscribe request; the
disconnected trace sends nothing. -/
theorem claim_C9_witness :
    (unsubscribe (fun _ => true) sessSub).2 =
      [WireOut.request Payload.unsubscribeCmd (sessSub.cMsgId + 1) sessSub.clientId] ∧
    (unsubscribe (fun _ => false) sessSub).2 = [] :=
  ⟨(claim_C9_amended (fun _ => true) sessSub).2.2.1 rfl,
   (claim_C9_amended (fun _ => false) sessSub).2.2.2 rfl⟩

/-- Claim C10: a delivery-tagged frame arriving while no handler is stored
(fresh session, or after unsubscribe) is not silently ignored — the handling
step fails with the error of invoking the absent handler. -/
theorem claim_C10 (s : Session) (f : Frame) (hp : f.pub = true)
    (hl : s.listener = none) :
    handleFrame s f = Except.error HandleErr.noHandler := by
  simp [handleFrame, hp, hl]

/-- Claim C10 witness: a delivery frame on a freshly constructed session. -/
theorem claim_C10_witness :
    handleFrame sessW framePub = Except.error HandleErr.noHandler :=
  claim_C10 sessW framePub rfl rfl

end DSClient
